import Mathlib

/-!
Verification of the cache update and dump engine of
`core/src/cache/cache_update_trait.cpp` (namespace `cache`).

Wall-clock and steady-clock instants are modelled as `Int` (the zero instant
`std::chrono::..::time_point{}` is `0`); durations are `Int` as well, so the
`last_update - min_dump_interval` arithmetic of the source never truncates.
The domain-supplied `Update` is modelled by two oracles: whether it returned
normally (`u_ok`) and whether it invoked `OnCacheModified` (`u_mod`).  The
asynchronous dump task spawned by `DumpAsync` is modelled by a
`DumpTaskState` value recording the captured operation and time arguments;
its later completion (the body of the lambda in `DumpAsync`) is the separate
function `CompleteDumpTask`, whose `success` argument models the outcome of
`DoDump` or of `dumper_->BumpDumpTime`.  Externally observable actions
(invoking the domain update, entering `DumpAsyncIfNeeded`, spawning a dump
task with its captured arguments, waiting on the dump task) are recorded in
an event list.
-/

namespace cache

/-- `cache::UpdateType`. -/
inductive UpdateType
  | kFull
  | kIncremental
deriving DecidableEq

/-- `cache::AllowedUpdateTypes`. -/
inductive AllowedUpdateTypes
  | kOnlyFull
  | kOnlyIncremental
  | kFullAndIncremental
deriving DecidableEq

/-- `cache::FirstUpdateMode`. -/
inductive FirstUpdateMode
  | kSkip
  | kBestEffort
  | kRequired
deriving DecidableEq

/-- `cache::CacheUpdateTrait::DumpType`. -/
inductive DumpType
  | kForced
  | kHonorDumpInterval
deriving DecidableEq

/-- `cache::CacheUpdateTrait::DumpOperation`. -/
inductive DumpOperation
  | kNewDump
  | kBumpTime
deriving DecidableEq

/-- State of `UpdateData::dump_task` (an `engine::TaskWithResult<void>`):
either no task handle, or a spawned task that captured
`operation_type`, `old_update_time` and `new_update_time`, or a task that
has already been observed to finish. -/
inductive DumpTaskState
  | invalid
  | running (operation_type : DumpOperation) (old_update_time new_update_time : Int)
  | finished
deriving DecidableEq

/-- `Task::IsValid()`. -/
def DumpTaskState.isValid : DumpTaskState → Bool
  | DumpTaskState.invalid => false
  | _ => true

/-- `Task::IsFinished()`. -/
def DumpTaskState.isFinished : DumpTaskState → Bool
  | DumpTaskState.finished => true
  | _ => false

/-- Externally observable actions of the engine. -/
inductive Event
  | updateRun (t : UpdateType)
  | dumpCheck (t : DumpType)
  | dumpScheduled (operation_type : DumpOperation) (old_update_time new_update_time : Int)
  | dumpWait
deriving DecidableEq

/-- The fields of `cache::CacheConfigStatic` used by the update/dump driver. -/
structure CacheConfigStatic where
  allowed_update_types : AllowedUpdateTypes
  first_update_mode : FirstUpdateMode
  force_full_second_update : Bool
  allow_first_update_failure : Bool
  dumps_enabled : Bool
  min_dump_interval : Int
  full_update_interval : Int
deriving DecidableEq

/-- The mutable state of a `CacheUpdateTrait`: the mutex-guarded
`UpdateData` fields plus the atomics on the cache object
(`is_running_`, `cache_modified_`, `force_next_update_full_`,
`last_dumped_update_`), the dump statistics flags and the `kNow` bit of
`periodic_task_flags_`. -/
structure CacheState where
  last_update : Int
  last_modifying_update : Int
  last_full_update : Int
  dump_task : DumpTaskState
  is_running : Bool
  cache_modified : Bool
  force_next_update_full : Bool
  last_dumped_update : Int
  is_current_from_dump : Bool
  is_loaded : Bool
  task_flag_now : Bool
deriving DecidableEq

/-- A state together with the events emitted while producing it. -/
structure StEv where
  state : CacheState
  events : List Event
deriving DecidableEq

/-- Result of an update body: whether the domain update returned normally,
the resulting state, and the emitted events. -/
structure UpdateResult where
  ok : Bool
  state : CacheState
  events : List Event
deriving DecidableEq

/-- `CacheUpdateTrait::Flag` (bootstrap flags). -/
structure Flags where
  kNoFirstUpdate : Bool
deriving DecidableEq

/-- Result of `StartPeriodicUpdates`: final state, whether the synchronous
first update was run, whether `update_task_.Start` was reached, and whether
the call propagated an exception. -/
structure BootResult where
  state : CacheState
  firstUpdateRan : Bool
  updateTaskStarted : Bool
  threw : Bool
  events : List Event
deriving DecidableEq

/-- `CacheUpdateTrait::ShouldDump` (cache_update_trait.cpp:317-348). -/
def ShouldDump (type : DumpType) (update : CacheState) (config : CacheConfigStatic) : Bool :=
  if config.dumps_enabled = false then false
  else if update.last_update = 0 then false
  else if type = DumpType.kHonorDumpInterval ∧
      update.last_dumped_update > update.last_update - config.min_dump_interval then false
  else if update.dump_task.isValid && !update.dump_task.isFinished then false
  else true

/-- `CacheUpdateTrait::DumpAsync` (cache_update_trait.cpp:385-420): consume
the previous (finished) task handle and spawn a task on the filesystem task
processor, capturing `old_update_time = GetLastDumpedUpdate()` and
`new_update_time = update.last_modifying_update`. -/
def DumpAsync (operation_type : DumpOperation) (st : CacheState) : StEv :=
  { state := { st with dump_task :=
        (DumpTaskState.running operation_type
          st.last_dumped_update st.last_modifying_update) },
    events := [(Event.dumpScheduled operation_type
          st.last_dumped_update st.last_modifying_update)] }

/-- The body of the task spawned by `DumpAsync`
(cache_update_trait.cpp:403-418): perform the dump (`DoDump`) or the rename
(`dumper_->BumpDumpTime`), with outcome `success`; on success store
`new_update_time` into `last_dumped_update_`. -/
def CompleteDumpTask (st : CacheState) (success : Bool) : CacheState :=
  match st.dump_task with
  | DumpTaskState.running _ _ new_update_time =>
      { st with dump_task := DumpTaskState.finished,
                last_dumped_update :=
                  if success then new_update_time else st.last_dumped_update }
  | _ => st

/-- `CacheUpdateTrait::DumpAsyncIfNeeded` (cache_update_trait.cpp:422-435). -/
def DumpAsyncIfNeeded (type : DumpType) (st : CacheState)
    (config : CacheConfigStatic) : StEv :=
  if ShouldDump type st config = false then
    { state := st, events := [Event.dumpCheck type] }
  else if st.last_dumped_update = st.last_modifying_update then
    { state := (DumpAsync DumpOperation.kBumpTime st).state,
      events := Event.dumpCheck type :: (DumpAsync DumpOperation.kBumpTime st).events }
  else
    { state := (DumpAsync DumpOperation.kNewDump st).state,
      events := Event.dumpCheck type :: (DumpAsync DumpOperation.kNewDump st).events }

/-- `CacheUpdateTrait::DoUpdate` (cache_update_trait.cpp:290-315).  The
domain `Update(update_type, update.last_update, system_now, stats)` call is
modelled by the oracles `u_ok` (returned vs threw) and `u_mod` (invoked
`OnCacheModified`, which sets `cache_modified_`).  On success:
`last_update = system_now`; if `cache_modified_.exchange(false)` then
`last_modifying_update = system_now`; if the type was full then
`last_full_update = steady_now`; `is_current_from_dump = false`. -/
def DoUpdate (update_type : UpdateType) (st : CacheState)
    (steady_now system_now : Int) (u_ok u_mod : Bool) : UpdateResult :=
  if u_ok = false then
    { ok := false,
      state := { st with cache_modified := st.cache_modified || u_mod },
      events := [Event.updateRun update_type] }
  else
    { ok := true,
      state := { st with
        last_update := system_now,
        cache_modified := false,
        last_modifying_update :=
          if st.cache_modified || u_mod then system_now else st.last_modifying_update,
        last_full_update :=
          if update_type = UpdateType.kFull then steady_now else st.last_full_update,
        is_current_from_dump := false },
      events := [Event.updateRun update_type] }

/-- The update-type decision of `DoPeriodicUpdate`
(cache_update_trait.cpp:240-261): full when forced, otherwise according to
`allowed_update_types`, with `kFullAndIncremental` comparing the monotonic
time elapsed since the last full update against `full_update_interval`. -/
def DecideUpdateType (force_full_update : Bool) (allowed : AllowedUpdateTypes)
    (steady_now last_full_update full_update_interval : Int) : UpdateType :=
  if force_full_update then UpdateType.kFull
  else
    match allowed with
    | AllowedUpdateTypes.kOnlyFull => UpdateType.kFull
    | AllowedUpdateTypes.kOnlyIncremental => UpdateType.kIncremental
    | AllowedUpdateTypes.kFullAndIncremental =>
        if steady_now - last_full_update < full_update_interval
        then UpdateType.kIncremental else UpdateType.kFull

/-- `CacheUpdateTrait::DoPeriodicUpdate` (cache_update_trait.cpp:233-272):
consume `force_next_update_full_` via `std::exchange`, decide the update
type (forced full also when `last_update` is the zero instant), run
`DoUpdate`, then call `DumpAsyncIfNeeded` with `kHonorDumpInterval` on both
the success and the exception path; an exception is rethrown afterwards
(`ok = false` in the result). -/
def DoPeriodicUpdate (st : CacheState) (config : CacheConfigStatic)
    (steady_now system_now : Int) (u_ok u_mod : Bool) : UpdateResult :=
  let force_full_update := st.force_next_update_full || (st.last_update == 0)
  let st0 := { st with force_next_update_full := false }
  let chosen_type := DecideUpdateType force_full_update config.allowed_update_types
    steady_now st0.last_full_update config.full_update_interval
  let ru := DoUpdate chosen_type st0 steady_now system_now u_ok u_mod
  let rd := DumpAsyncIfNeeded DumpType.kHonorDumpInterval ru.state config
  { ok := ru.ok, state := rd.state, events := ru.events ++ rd.events }

/-- The public `CacheUpdateTrait::Update` (cache_update_trait.cpp:31-41):
coerce an incremental request to full under `kOnlyFull`, then run `DoUpdate`
directly, with no type-decision step and no dump call. -/
def UpdatePub (update_type : UpdateType) (st : CacheState)
    (config : CacheConfigStatic) (steady_now system_now : Int)
    (u_ok u_mod : Bool) : UpdateResult :=
  let t :=
    if config.allowed_update_types = AllowedUpdateTypes.kOnlyFull ∧
        update_type = UpdateType.kIncremental
    then UpdateType.kFull else update_type
  DoUpdate t st steady_now system_now u_ok u_mod

/-- `CacheUpdateTrait::DumpSyncDebug` (cache_update_trait.cpp:43-49): call
`DumpAsyncIfNeeded(kForced, ...)`, then if the dump task handle is valid,
wait for the task, i.e. run it to completion (`pending_success` models its
outcome). -/
def DumpSyncDebug (st : CacheState) (config : CacheConfigStatic)
    (pending_success : Bool) : StEv :=
  let r := DumpAsyncIfNeeded DumpType.kForced st config
  if r.state.dump_task.isValid then
    { state := CompleteDumpTask r.state pending_success,
      events := r.events ++ [Event.dumpWait] }
  else r

/-- `CacheUpdateTrait::LoadFromDump` (cache_update_trait.cpp:437-481).  The
facade read (`GetLatestDump` + `ReadAndSet`, run on the filesystem task
processor with all exceptions caught) is modelled by `dump_read`:
`some t` means a dump with update time `t` was read successfully, `none`
means no dump or a load error.  On success: `last_update` and
`last_modifying_update` become the dump time, `last_dumped_update` is
raised by `utils::AtomicMax`, and the dump statistics flags are set. -/
def LoadFromDump (st : CacheState) (config : CacheConfigStatic)
    (dump_read : Option Int) : Bool × CacheState :=
  if config.dumps_enabled = false then (false, st)
  else
    match dump_read with
    | none => (false, st)
    | some t =>
        (true, { st with
          last_update := t,
          last_modifying_update := t,
          last_dumped_update := max st.last_dumped_update t,
          is_loaded := true,
          is_current_from_dump := true })

/-- The tail of `StartPeriodicUpdates` (cache_update_trait.cpp:147-166):
the second-update escalation (set `force_next_update_full_` and add the
`kNow` periodic task flag) followed by starting the periodic tasks when
periodic updates are enabled. -/
def FinishBoot (st : CacheState) (config : CacheConfigStatic)
    (dump_loaded periodic_update_enabled first_ran : Bool)
    (evs : List Event) : BootResult :=
  { state :=
      if dump_loaded &&
          (config.allowed_update_types == AllowedUpdateTypes.kOnlyIncremental) &&
          config.force_full_second_update then
        { st with force_next_update_full := true, task_flag_now := true }
      else st,
    firstUpdateRan := first_ran,
    updateTaskStarted := periodic_update_enabled,
    threw := false,
    events := evs }

/-- `CacheUpdateTrait::StartPeriodicUpdates` (cache_update_trait.cpp:98-171).
If `is_running_.exchange(true)` was already true, return.  Load the dump,
then run a synchronous first update unless
`(dump_loaded ∧ first_update_mode = kSkip) ∨ (kNoFirstUpdate ∧ periodic
updates enabled)`.  A first-update exception is tolerated when a dump was
loaded and the mode is not `kRequired`, or when
`allow_first_update_failure`; otherwise `is_running_` is reset and the
exception propagates, with no periodic task started. -/
def StartPeriodicUpdates (st : CacheState) (config : CacheConfigStatic)
    (flags : Flags) (periodic_update_enabled : Bool) (dump_read : Option Int)
    (steady_now system_now : Int) (u_ok u_mod : Bool) : BootResult :=
  if st.is_running then
    { state := st, firstUpdateRan := false, updateTaskStarted := false,
      threw := false, events := [] }
  else
    let load := LoadFromDump { st with is_running := true } config dump_read
    if (!load.1 || (config.first_update_mode != FirstUpdateMode.kSkip)) &&
        (!flags.kNoFirstUpdate || !periodic_update_enabled) then
      let r := DoPeriodicUpdate load.2 config steady_now system_now u_ok u_mod
      if r.ok then
        FinishBoot r.state config load.1 periodic_update_enabled true r.events
      else if load.1 && (config.first_update_mode != FirstUpdateMode.kRequired) then
        FinishBoot r.state config load.1 periodic_update_enabled true r.events
      else if config.allow_first_update_failure then
        FinishBoot r.state config load.1 periodic_update_enabled true r.events
      else
        { state := { r.state with is_running := false },
          firstUpdateRan := true, updateTaskStarted := false,
          threw := true, events := r.events }
    else
      FinishBoot load.2 config load.1 periodic_update_enabled false []

/-- The state of a freshly constructed `CacheUpdateTrait`
(cache_update_trait.cpp:58-79): all instants are the zero instant, no dump
task, all flags clear. -/
def InitState : CacheState :=
  { last_update := 0,
    last_modifying_update := 0,
    last_full_update := 0,
    dump_task := DumpTaskState.invalid,
    is_running := false,
    cache_modified := false,
    force_next_update_full := false,
    last_dumped_update := 0,
    is_current_from_dump := false,
    is_loaded := false,
    task_flag_now := false }

/-- The engine invariant: instants are non-negative,
`last_modifying_update ≤ last_update`, a spawned dump task's captured
`new_update_time` lies between `last_dumped_update` and
`last_modifying_update`, and with no dump task in flight
`last_dumped_update ≤ last_modifying_update`. -/
def Inv (st : CacheState) : Prop :=
  0 ≤ st.last_dumped_update ∧
  st.last_modifying_update ≤ st.last_update ∧
  0 ≤ st.last_modifying_update ∧
  0 ≤ st.last_update ∧
  (∀ op o n, st.dump_task = DumpTaskState.running op o n →
      st.last_dumped_update ≤ n ∧ n ≤ st.last_modifying_update) ∧
  ((st.dump_task.isValid && !st.dump_task.isFinished) = false →
      st.last_dumped_update ≤ st.last_modifying_update)

/-- One transition of the engine.  Ticks and explicit updates carry the
side condition that the wall clock does not run backwards
(`last_update ≤ system_now`); the dump load step only happens during
bootstrap, before any update or dump activity (`last_update = 0`, no dump
task handle), and dump files carry non-negative timestamps. -/
inductive Step : CacheState → CacheState → Prop
  | tick (config : CacheConfigStatic) (steady_now system_now : Int)
      (u_ok u_mod : Bool) (st : CacheState)
      (hnow : st.last_update ≤ system_now) :
      Step st (DoPeriodicUpdate st config steady_now system_now u_ok u_mod).state
  | explicitUpdate (t : UpdateType) (config : CacheConfigStatic)
      (steady_now system_now : Int) (u_ok u_mod : Bool) (st : CacheState)
      (hnow : st.last_update ≤ system_now) :
      Step st (UpdatePub t st config steady_now system_now u_ok u_mod).state
  | dumpComplete (success : Bool) (st : CacheState)
      (hlive : (st.dump_task.isValid && !st.dump_task.isFinished) = true) :
      Step st (CompleteDumpTask st success)
  | load (config : CacheConfigStatic) (t : Int) (st : CacheState)
      (hfresh : st.last_update = 0) (ht : 0 ≤ t)
      (htask : st.dump_task = DumpTaskState.invalid) :
      Step st (LoadFromDump st config (some t)).2
  | syncDebug (config : CacheConfigStatic) (pending_success : Bool)
      (st : CacheState) :
      Step st (DumpSyncDebug st config pending_success).state

/-- States reachable from a freshly constructed cache. -/
def Reachable (st : CacheState) : Prop :=
  Relation.ReflTransGen Step InitState st

/-- A sample configuration used for concrete evaluations: dumps enabled
with `min_dump_interval = 2`, only full updates allowed. -/
def CfgW : CacheConfigStatic :=
  { allowed_update_types := AllowedUpdateTypes.kOnlyFull,
    first_update_mode := FirstUpdateMode.kBestEffort,
    force_full_second_update := false,
    allow_first_update_failure := false,
    dumps_enabled := true,
    min_dump_interval := 2,
    full_update_interval := 10 }

/-- State right after a successful dump reflecting instant 5: the on-disk
dump, `last_dumped_update` and `last_modifying_update` all carry 5, and the
dump task has finished. -/
def StAfterDump : CacheState :=
  { last_update := 5,
    last_modifying_update := 5,
    last_full_update := 0,
    dump_task := DumpTaskState.finished,
    is_running := true,
    cache_modified := false,
    force_next_update_full := false,
    last_dumped_update := 5,
    is_current_from_dump := false,
    is_loaded := false,
    task_flag_now := false }

/-- State with a dump task still in flight (spawned as a new dump for
instant 8 while `last_dumped_update` is still 3). -/
def StLiveDump : CacheState :=
  { last_update := 10,
    last_modifying_update := 8,
    last_full_update := 0,
    dump_task := DumpTaskState.running DumpOperation.kNewDump 3 8,
    is_running := true,
    cache_modified := false,
    force_next_update_full := false,
    last_dumped_update := 3,
    is_current_from_dump := false,
    is_loaded := false,
    task_flag_now := false }

lemma DoUpdate_ok_eq (t : UpdateType) (st : CacheState) (sn tn : Int)
    (ok m : Bool) : (DoUpdate t st sn tn ok m).ok = ok := by
  cases ok <;> simp [DoUpdate]

lemma DoUpdate_events_eq (t : UpdateType) (st : CacheState) (sn tn : Int)
    (ok m : Bool) : (DoUpdate t st sn tn ok m).events = [Event.updateRun t] := by
  cases ok <;> simp [DoUpdate]

lemma DoUpdate_state_lu (t : UpdateType) (st : CacheState) (sn tn : Int)
    (ok m : Bool) : (DoUpdate t st sn tn ok m).state.last_update =
      if ok then tn else st.last_update := by
  cases ok <;> simp [DoUpdate]

lemma DoUpdate_state_lmu (t : UpdateType) (st : CacheState) (sn tn : Int)
    (ok m : Bool) : (DoUpdate t st sn tn ok m).state.last_modifying_update =
      if ok && (st.cache_modified || m) then tn else st.last_modifying_update := by
  cases ok <;> simp [DoUpdate]

lemma DoUpdate_state_ldu (t : UpdateType) (st : CacheState) (sn tn : Int)
    (ok m : Bool) : (DoUpdate t st sn tn ok m).state.last_dumped_update =
      st.last_dumped_update := by
  cases ok <;> simp [DoUpdate]

lemma DoUpdate_state_task (t : UpdateType) (st : CacheState) (sn tn : Int)
    (ok m : Bool) : (DoUpdate t st sn tn ok m).state.dump_task = st.dump_task := by
  cases ok <;> simp [DoUpdate]

lemma DoUpdate_state_is_running (t : UpdateType) (st : CacheState) (sn tn : Int)
    (ok m : Bool) : (DoUpdate t st sn tn ok m).state.is_running = st.is_running := by
  cases ok <;> simp [DoUpdate]

lemma DoUpdate_state_fnuf (t : UpdateType) (st : CacheState) (sn tn : Int)
    (ok m : Bool) : (DoUpdate t st sn tn ok m).state.force_next_update_full =
      st.force_next_update_full := by
  cases ok <;> simp [DoUpdate]

lemma DumpAsyncIfNeeded_state_ldu (ty : DumpType) (st : CacheState)
    (cfg : CacheConfigStatic) :
    (DumpAsyncIfNeeded ty st cfg).state.last_dumped_update = st.last_dumped_update := by
  unfold DumpAsyncIfNeeded DumpAsync
  split_ifs <;> rfl

lemma DumpAsyncIfNeeded_state_lmu (ty : DumpType) (st : CacheState)
    (cfg : CacheConfigStatic) :
    (DumpAsyncIfNeeded ty st cfg).state.last_modifying_update =
      st.last_modifying_update := by
  unfold DumpAsyncIfNeeded DumpAsync
  split_ifs <;> rfl

lemma DumpAsyncIfNeeded_state_lu (ty : DumpType) (st : CacheState)
    (cfg : CacheConfigStatic) :
    (DumpAsyncIfNeeded ty st cfg).state.last_update = st.last_update := by
  unfold DumpAsyncIfNeeded DumpAsync
  split_ifs <;> rfl

lemma DumpAsyncIfNeeded_state_is_running (ty : DumpType) (st : CacheState)
    (cfg : CacheConfigStatic) :
    (DumpAsyncIfNeeded ty st cfg).state.is_running = st.is_running := by
  unfold DumpAsyncIfNeeded DumpAsync
  split_ifs <;> rfl

lemma DumpAsyncIfNeeded_state_fnuf (ty : DumpType) (st : CacheState)
    (cfg : CacheConfigStatic) :
    (DumpAsyncIfNeeded ty st cfg).state.force_next_update_full =
      st.force_next_update_full := by
  unfold DumpAsyncIfNeeded DumpAsync
  split_ifs <;> rfl

lemma DumpAsyncIfNeeded_state_task (ty : DumpType) (st : CacheState)
    (cfg : CacheConfigStatic) :
    (DumpAsyncIfNeeded ty st cfg).state.dump_task =
      if ShouldDump ty st cfg = false then st.dump_task
      else (DumpTaskState.running
        (if st.last_dumped_update = st.last_modifying_update then DumpOperation.kBumpTime
         else DumpOperation.kNewDump)
        st.last_dumped_update st.last_modifying_update) := by
  unfold DumpAsyncIfNeeded DumpAsync
  split_ifs <;> rfl

lemma DumpAsyncIfNeeded_events_ex (ty : DumpType) (st : CacheState)
    (cfg : CacheConfigStatic) :
    ∃ rest, (DumpAsyncIfNeeded ty st cfg).events = Event.dumpCheck ty :: rest := by
  unfold DumpAsyncIfNeeded DumpAsync
  split_ifs <;> exact ⟨_, rfl⟩

lemma ShouldDump_not_live (ty : DumpType) (st : CacheState)
    (cfg : CacheConfigStatic) (h : ShouldDump ty st cfg = true) :
    (st.dump_task.isValid && !st.dump_task.isFinished) = false := by
  unfold ShouldDump at h
  split_ifs at h with h1 h2 h3 h4
  simp_all

lemma DoPeriodicUpdate_ok_eq (st : CacheState) (cfg : CacheConfigStatic)
    (sn tn : Int) (ok m : Bool) :
    (DoPeriodicUpdate st cfg sn tn ok m).ok = ok := by
  simp [DoPeriodicUpdate, DoUpdate_ok_eq]

lemma DoPeriodicUpdate_state_ldu (st : CacheState) (cfg : CacheConfigStatic)
    (sn tn : Int) (ok m : Bool) :
    (DoPeriodicUpdate st cfg sn tn ok m).state.last_dumped_update =
      st.last_dumped_update := by
  simp [DoPeriodicUpdate, DumpAsyncIfNeeded_state_ldu, DoUpdate_state_ldu]

lemma DoPeriodicUpdate_state_fnuf (st : CacheState) (cfg : CacheConfigStatic)
    (sn tn : Int) (ok m : Bool) :
    (DoPeriodicUpdate st cfg sn tn ok m).state.force_next_update_full = false := by
  simp [DoPeriodicUpdate, DumpAsyncIfNeeded_state_fnuf, DoUpdate_state_fnuf]

lemma DoPeriodicUpdate_state_is_running (st : CacheState) (cfg : CacheConfigStatic)
    (sn tn : Int) (ok m : Bool) :
    (DoPeriodicUpdate st cfg sn tn ok m).state.is_running = st.is_running := by
  simp [DoPeriodicUpdate, DumpAsyncIfNeeded_state_is_running, DoUpdate_state_is_running]

lemma DoPeriodicUpdate_events_head (st : CacheState) (cfg : CacheConfigStatic)
    (sn tn : Int) (ok m : Bool) :
    (DoPeriodicUpdate st cfg sn tn ok m).events.head? =
      some (Event.updateRun (DecideUpdateType
        (st.force_next_update_full || (st.last_update == 0))
        cfg.allowed_update_types sn st.last_full_update cfg.full_update_interval)) := by
  simp [DoPeriodicUpdate, DoUpdate_events_eq]

/-- C4: `ShouldDump(type, state, config)` returns false exactly when dumps
are disabled, or `last_update` is the zero instant, or the type is
`kHonorDumpInterval` and `last_dumped_update > last_update -
min_dump_interval`, or a prior dump task is still live; otherwise true. -/
theorem C4_should_dump_characterization (type : DumpType) (st : CacheState)
    (config : CacheConfigStatic) :
    ShouldDump type st config = false ↔
      (config.dumps_enabled = false ∨ st.last_update = 0 ∨
       (type = DumpType.kHonorDumpInterval ∧
         st.last_dumped_update > st.last_update - config.min_dump_interval) ∨
       (st.dump_task.isValid && !st.dump_task.isFinished) = true) := by
  unfold ShouldDump
  split_ifs with h1 h2 h3 h4 <;> simp_all

/-- C7: on every periodic tick, whether the domain update succeeds or
throws, `DumpAsyncIfNeeded` is entered with policy `kHonorDumpInterval`
right after the update, and the tick's outcome equals the update's
outcome (a thrown exception is rethrown after the dump call). -/
theorem C7_dump_called_on_both_paths (st : CacheState)
    (config : CacheConfigStatic) (steady_now system_now : Int)
    (u_ok u_mod : Bool) :
    (∃ t rest, (DoPeriodicUpdate st config steady_now system_now u_ok u_mod).events =
        Event.updateRun t :: Event.dumpCheck DumpType.kHonorDumpInterval :: rest) ∧
    (DoPeriodicUpdate st config steady_now system_now u_ok u_mod).ok = u_ok := by
  refine ⟨?_, DoPeriodicUpdate_ok_eq st config steady_now system_now u_ok u_mod⟩
  simp only [DoPeriodicUpdate, DoUpdate_events_eq]
  obtain ⟨rest, hre⟩ := DumpAsyncIfNeeded_events_ex DumpType.kHonorDumpInterval
    (DoUpdate (DecideUpdateType
        (st.force_next_update_full || (st.last_update == 0))
        config.allowed_update_types steady_now
        ({ st with force_next_update_full := false } : CacheState).last_full_update
        config.full_update_interval)
      { st with force_next_update_full := false }
      steady_now system_now u_ok u_mod).state config
  rw [hre]
  exact ⟨_, rest, rfl⟩

/-- C1: on every periodic tick the chosen update type is full when
`force_next_update_full` was set or `last_update` is the zero instant;
otherwise full under `kOnlyFull`, incremental under `kOnlyIncremental`,
and under `kFullAndIncremental` incremental exactly when the monotonic
time elapsed since the last full update is below `full_update_interval`;
moreover `force_next_update_full` is consumed as a one-shot. -/
theorem C1_periodic_update_type_decision (st : CacheState)
    (config : CacheConfigStatic) (steady_now system_now : Int)
    (u_ok u_mod : Bool) :
    ((st.force_next_update_full = true ∨ st.last_update = 0) →
      (DoPeriodicUpdate st config steady_now system_now u_ok u_mod).events.head? =
        some (Event.updateRun UpdateType.kFull)) ∧
    (st.force_next_update_full = false → st.last_update ≠ 0 →
      ((config.allowed_update_types = AllowedUpdateTypes.kOnlyFull →
        (DoPeriodicUpdate st config steady_now system_now u_ok u_mod).events.head? =
          some (Event.updateRun UpdateType.kFull)) ∧
       (config.allowed_update_types = AllowedUpdateTypes.kOnlyIncremental →
        (DoPeriodicUpdate st config steady_now system_now u_ok u_mod).events.head? =
          some (Event.updateRun UpdateType.kIncremental)) ∧
       (config.allowed_update_types = AllowedUpdateTypes.kFullAndIncremental →
        ((steady_now - st.last_full_update < config.full_update_interval →
          (DoPeriodicUpdate st config steady_now system_now u_ok u_mod).events.head? =
            some (Event.updateRun UpdateType.kIncremental)) ∧
         (config.full_update_interval ≤ steady_now - st.last_full_update →
          (DoPeriodicUpdate st config steady_now system_now u_ok u_mod).events.head? =
            some (Event.updateRun UpdateType.kFull)))))) ∧
    (DoPeriodicUpdate st config steady_now system_now u_ok
        u_mod).state.force_next_update_full = false := by
  refine ⟨?_, ?_, DoPeriodicUpdate_state_fnuf st config steady_now system_now u_ok u_mod⟩
  · intro h
    rw [DoPeriodicUpdate_events_head]
    have hf : (st.force_next_update_full || (st.last_update == 0)) = true := by
      rcases h with h | h <;> simp [h]
    simp [DecideUpdateType, hf]
  · intro h1 h2
    have hf : (st.force_next_update_full || (st.last_update == 0)) = false := by
      simp [h1, h2]
    refine ⟨?_, ?_, ?_⟩
    · intro ha
      rw [DoPeriodicUpdate_events_head]
      simp [DecideUpdateType, hf, ha]
    · intro ha
      rw [DoPeriodicUpdate_events_head]
      simp [DecideUpdateType, hf, ha]
    · intro ha
      constructor
      · intro hlt
        rw [DoPeriodicUpdate_events_head]
        simp [DecideUpdateType, hf, ha, hlt]
      · intro hge
        rw [DoPeriodicUpdate_events_head]
        simp [DecideUpdateType, hf, ha, not_lt.mpr hge]

/-- Witness for C1: on a freshly constructed cache (`last_update` is the
zero instant) the first tick is a full update. -/
theorem C1_periodic_update_type_decision_witness :
    (DoPeriodicUpdate InitState CfgW 0 7 true false).events.head? =
      some (Event.updateRun UpdateType.kFull) :=
  (C1_periodic_update_type_decision InitState CfgW 0 7 true false).1 (Or.inr rfl)

lemma LoadFromDump_fst (st : CacheState) (cfg : CacheConfigStatic)
    (dump_read : Option Int) :
    (LoadFromDump st cfg dump_read).1 = (cfg.dumps_enabled && dump_read.isSome) := by
  cases hd : cfg.dumps_enabled <;> cases dump_read <;> simp [LoadFromDump, hd]

lemma LoadFromDump_state_is_running (st : CacheState) (cfg : CacheConfigStatic)
    (dump_read : Option Int) :
    (LoadFromDump st cfg dump_read).2.is_running = st.is_running := by
  unfold LoadFromDump
  split_ifs
  · rfl
  · cases dump_read <;> rfl

lemma FinishBoot_firstUpdateRan (st : CacheState) (cfg : CacheConfigStatic)
    (dl pe fr : Bool) (evs : List Event) :
    (FinishBoot st cfg dl pe fr evs).firstUpdateRan = fr := rfl

lemma FinishBoot_threw (st : CacheState) (cfg : CacheConfigStatic)
    (dl pe fr : Bool) (evs : List Event) :
    (FinishBoot st cfg dl pe fr evs).threw = false := rfl

lemma FinishBoot_updateTaskStarted (st : CacheState) (cfg : CacheConfigStatic)
    (dl pe fr : Bool) (evs : List Event) :
    (FinishBoot st cfg dl pe fr evs).updateTaskStarted = pe := rfl

lemma FinishBoot_state_is_running (st : CacheState) (cfg : CacheConfigStatic)
    (dl pe fr : Bool) (evs : List Event) :
    (FinishBoot st cfg dl pe fr evs).state.is_running = st.is_running := by
  unfold FinishBoot
  split_ifs <;> rfl

lemma StartPeriodic_first_cond (config : CacheConfigStatic) (flags : Flags)
    (pe : Bool) (dump_read : Option Int) (st : CacheState) :
    ((!(LoadFromDump st config dump_read).1 ||
        (config.first_update_mode != FirstUpdateMode.kSkip)) &&
      (!flags.kNoFirstUpdate || !pe)) =
    (!((config.dumps_enabled && dump_read.isSome) &&
        (config.first_update_mode == FirstUpdateMode.kSkip)) &&
      !(flags.kNoFirstUpdate && pe)) := by
  rw [LoadFromDump_fst]
  simp [Bool.not_and, bne]

/-- C2: on a bootstrap call of `StartPeriodicUpdates`, the synchronous
first update runs unless (a) a dump was loaded and `first_update_mode` is
`kSkip`, or (b) the caller passed `kNoFirstUpdate` and periodic updates
are enabled. -/
theorem C2_first_update_condition (st : CacheState) (config : CacheConfigStatic)
    (flags : Flags) (pe : Bool) (dump_read : Option Int) (sn tn : Int)
    (u_ok u_mod : Bool) (hrun : st.is_running = false) :
    (StartPeriodicUpdates st config flags pe dump_read sn tn u_ok u_mod).firstUpdateRan =
      (!((config.dumps_enabled && dump_read.isSome) &&
          (config.first_update_mode == FirstUpdateMode.kSkip)) &&
       !(flags.kNoFirstUpdate && pe)) := by
  simp only [StartPeriodicUpdates, hrun]
  rw [if_neg Bool.false_ne_true, StartPeriodic_first_cond]
  by_cases hR : (!((config.dumps_enabled && dump_read.isSome) &&
      (config.first_update_mode == FirstUpdateMode.kSkip)) &&
      !(flags.kNoFirstUpdate && pe)) = true
  · rw [if_pos hR]
    split_ifs <;> exact hR.symm
  · rw [if_neg hR, FinishBoot_firstUpdateRan]
    rw [Bool.not_eq_true] at hR
    exact hR.symm

/-- Witness for C2: with no dump on disk and no flags, a bootstrap on a
fresh cache runs the synchronous first update. -/
theorem C2_first_update_condition_witness :
    (StartPeriodicUpdates InitState CfgW ⟨false⟩ true none 0 7 true
        false).firstUpdateRan = true := by
  rw [C2_first_update_condition InitState CfgW ⟨false⟩ true none 0 7 true false rfl]
  decide

/-- C3: if the synchronous first update of a bootstrap throws, then with a
dump loaded and `first_update_mode ≠ kRequired` the bootstrap proceeds
(with the dump contents); otherwise with `allow_first_update_failure` it
proceeds (with an empty cache); otherwise `is_running` is reset to false,
no periodic task is started, and the exception propagates. -/
theorem C3_first_update_failure_policy (st : CacheState)
    (config : CacheConfigStatic) (flags : Flags) (pe : Bool)
    (dump_read : Option Int) (sn tn : Int) (u_mod : Bool)
    (hrun : st.is_running = false)
    (hfirst : (!((config.dumps_enabled && dump_read.isSome) &&
        (config.first_update_mode == FirstUpdateMode.kSkip)) &&
        !(flags.kNoFirstUpdate && pe)) = true) :
    (((config.dumps_enabled && dump_read.isSome) = true ∧
        config.first_update_mode ≠ FirstUpdateMode.kRequired) →
      (StartPeriodicUpdates st config flags pe dump_read sn tn false u_mod).threw = false ∧
      (StartPeriodicUpdates st config flags pe dump_read sn tn false
          u_mod).state.is_running = true ∧
      (StartPeriodicUpdates st config flags pe dump_read sn tn false
          u_mod).updateTaskStarted = pe) ∧
    (¬((config.dumps_enabled && dump_read.isSome) = true ∧
        config.first_update_mode ≠ FirstUpdateMode.kRequired) →
      config.allow_first_update_failure = true →
      (StartPeriodicUpdates st config flags pe dump_read sn tn false u_mod).threw = false ∧
      (StartPeriodicUpdates st config flags pe dump_read sn tn false
          u_mod).state.is_running = true ∧
      (StartPeriodicUpdates st config flags pe dump_read sn tn false
          u_mod).updateTaskStarted = pe) ∧
    (¬((config.dumps_enabled && dump_read.isSome) = true ∧
        config.first_update_mode ≠ FirstUpdateMode.kRequired) →
      config.allow_first_update_failure = false →
      (StartPeriodicUpdates st config flags pe dump_read sn tn false u_mod).threw = true ∧
      (StartPeriodicUpdates st config flags pe dump_read sn tn false
          u_mod).state.is_running = false ∧
      (StartPeriodicUpdates st config flags pe dump_read sn tn false
          u_mod).updateTaskStarted = false) := by
  have hload := LoadFromDump_fst { st with is_running := true } config dump_read
  have hrun2 : (LoadFromDump { st with is_running := true } config
      dump_read).2.is_running = true :=
    LoadFromDump_state_is_running { st with is_running := true } config dump_read
  simp only [StartPeriodicUpdates, hrun]
  rw [if_neg Bool.false_ne_true, StartPeriodic_first_cond, if_pos hfirst,
    if_neg (by simp [DoPeriodicUpdate_ok_eq])]
  rw [hload]
  refine ⟨?_, ?_, ?_⟩
  · rintro ⟨hdl, hmode⟩
    rw [if_pos (by simp [hdl, bne_iff_ne, hmode])]
    refine ⟨FinishBoot_threw _ _ _ _ _ _, ?_, FinishBoot_updateTaskStarted _ _ _ _ _ _⟩
    rw [FinishBoot_state_is_running, DoPeriodicUpdate_state_is_running, hrun2]
  · intro hneg haff
    rw [if_neg ?hc, if_pos haff]
    case hc =>
      intro hcond
      rw [Bool.and_eq_true, bne_iff_ne] at hcond
      exact hneg hcond
    refine ⟨FinishBoot_threw _ _ _ _ _ _, ?_, FinishBoot_updateTaskStarted _ _ _ _ _ _⟩
    rw [FinishBoot_state_is_running, DoPeriodicUpdate_state_is_running, hrun2]
  · intro hneg haff
    rw [if_neg ?hc2, if_neg (by simp [haff])]
    case hc2 =>
      intro hcond
      rw [Bool.and_eq_true, bne_iff_ne] at hcond
      exact hneg hcond
    exact ⟨rfl, rfl, rfl⟩

/-- Witness for C3: a fresh cache with no dump, `allow_first_update_failure`
unset, and a throwing first update propagates the exception with
`is_running` reset and no periodic task started. -/
theorem C3_first_update_failure_policy_witness :
    (StartPeriodicUpdates InitState CfgW ⟨false⟩ true none 0 7 false
        false).threw = true ∧
    (StartPeriodicUpdates InitState CfgW ⟨false⟩ true none 0 7 false
        false).state.is_running = false :=
  ⟨((C3_first_update_failure_policy InitState CfgW ⟨false⟩ true none 0 7 false rfl
      (by decide)).2.2 (by decide) rfl).1,
   ((C3_first_update_failure_policy InitState CfgW ⟨false⟩ true none 0 7 false rfl
      (by decide)).2.2 (by decide) rfl).2.1⟩

lemma UpdatePub_state_ldu (t : UpdateType) (st : CacheState)
    (cfg : CacheConfigStatic) (sn tn : Int) (ok m : Bool) :
    (UpdatePub t st cfg sn tn ok m).state.last_dumped_update =
      st.last_dumped_update := by
  simp [UpdatePub, DoUpdate_state_ldu]

lemma inv_DoUpdate (t : UpdateType) (st : CacheState) (sn tn : Int)
    (ok m : Bool) (hInv : Inv st) (hnow : st.last_update ≤ tn) :
    Inv (DoUpdate t st sn tn ok m).state := by
  obtain ⟨h1, h2, h3, h4, h5, h6⟩ := hInv
  refine ⟨?_, ?_, ?_, ?_, ?_, ?_⟩
  · rw [DoUpdate_state_ldu]
    exact h1
  · rw [DoUpdate_state_lmu, DoUpdate_state_lu]
    split_ifs <;> first | omega | simp_all
  · rw [DoUpdate_state_lmu]
    split_ifs <;> omega
  · rw [DoUpdate_state_lu]
    split_ifs <;> omega
  · simp only [DoUpdate_state_task, DoUpdate_state_lmu, DoUpdate_state_ldu]
    intro op o n h
    obtain ⟨ha, hb⟩ := h5 op o n h
    refine ⟨ha, ?_⟩
    split_ifs <;> omega
  · simp only [DoUpdate_state_task, DoUpdate_state_lmu, DoUpdate_state_ldu]
    intro h
    have h7 := h6 h
    split_ifs <;> omega

lemma inv_DumpAsyncIfNeeded (ty : DumpType) (st : CacheState)
    (cfg : CacheConfigStatic) (hInv : Inv st) :
    Inv (DumpAsyncIfNeeded ty st cfg).state := by
  obtain ⟨h1, h2, h3, h4, h5, h6⟩ := hInv
  refine ⟨?_, ?_, ?_, ?_, ?_, ?_⟩
  · rw [DumpAsyncIfNeeded_state_ldu]
    exact h1
  · rw [DumpAsyncIfNeeded_state_lmu, DumpAsyncIfNeeded_state_lu]
    exact h2
  · rw [DumpAsyncIfNeeded_state_lmu]
    exact h3
  · rw [DumpAsyncIfNeeded_state_lu]
    exact h4
  · simp only [DumpAsyncIfNeeded_state_task, DumpAsyncIfNeeded_state_lmu,
      DumpAsyncIfNeeded_state_ldu]
    intro op o n h
    by_cases hs : ShouldDump ty st cfg = false
    · rw [if_pos hs] at h
      exact h5 op o n h
    · rw [if_neg hs] at h
      have hs' : ShouldDump ty st cfg = true := by
        revert hs
        cases ShouldDump ty st cfg <;> simp
      have hnl := ShouldDump_not_live ty st cfg hs'
      injection h with hop ho hn
      subst hn
      exact ⟨h6 hnl, le_refl _⟩
  · simp only [DumpAsyncIfNeeded_state_task, DumpAsyncIfNeeded_state_lmu,
      DumpAsyncIfNeeded_state_ldu]
    intro h
    by_cases hs : ShouldDump ty st cfg = false
    · rw [if_pos hs] at h
      exact h6 h
    · rw [if_neg hs] at h
      simp [DumpTaskState.isValid, DumpTaskState.isFinished] at h

lemma inv_CompleteDumpTask (st : CacheState) (s : Bool) (hInv : Inv st) :
    Inv (CompleteDumpTask st s) := by
  obtain ⟨h1, h2, h3, h4, h5, h6⟩ := hInv
  unfold CompleteDumpTask
  cases htask : st.dump_task with
  | invalid => exact ⟨h1, h2, h3, h4, h5, h6⟩
  | finished => exact ⟨h1, h2, h3, h4, h5, h6⟩
  | running op o n =>
      obtain ⟨ha, hb⟩ := h5 op o n htask
      refine ⟨?_, h2, h3, h4, ?_, ?_⟩
      · show 0 ≤ (if s then n else st.last_dumped_update)
        split_ifs <;> omega
      · intro op' o' n' h
        exact DumpTaskState.noConfusion h
      · intro _
        show (if s then n else st.last_dumped_update) ≤ st.last_modifying_update
        split_ifs <;> omega

lemma inv_LoadFromDump (st : CacheState) (cfg : CacheConfigStatic) (t : Int)
    (hInv : Inv st) (hfresh : st.last_update = 0) (ht : 0 ≤ t)
    (htask : st.dump_task = DumpTaskState.invalid) :
    Inv (LoadFromDump st cfg (some t)).2 := by
  obtain ⟨h1, h2, h3, h4, h5, h6⟩ := hInv
  have hlive : (st.dump_task.isValid && !st.dump_task.isFinished) = false := by
    rw [htask]
    rfl
  have h7 := h6 hlive
  unfold LoadFromDump
  split_ifs with hd
  · exact ⟨h1, h2, h3, h4, h5, h6⟩
  · refine ⟨le_max_of_le_right ht, le_refl t, ht, ht, ?_, ?_⟩
    · intro op o n h
      have h' : st.dump_task = DumpTaskState.running op o n := h
      rw [htask] at h'
      exact DumpTaskState.noConfusion h'
    · intro _
      have hldu0 : st.last_dumped_update = 0 := by omega
      show max st.last_dumped_update t ≤ t
      rw [hldu0]
      exact max_le ht (le_refl t)

lemma inv_InitState : Inv InitState :=
  ⟨le_refl 0, le_refl 0, le_refl 0, le_refl 0,
   fun _ _ _ h => DumpTaskState.noConfusion h, fun _ => le_refl 0⟩

lemma step_preserves_inv (st st' : CacheState) (h : Step st st')
    (hInv : Inv st) : Inv st' := by
  cases h with
  | tick cfg sn tn ok m st hnow =>
      have h0 : Inv { st with force_next_update_full := false } := hInv
      have hnow0 : ({ st with force_next_update_full := false } :
          CacheState).last_update ≤ tn := hnow
      simp only [DoPeriodicUpdate]
      exact inv_DumpAsyncIfNeeded _ _ _ (inv_DoUpdate _ _ _ _ _ _ h0 hnow0)
  | explicitUpdate t cfg sn tn ok m st hnow =>
      simp only [UpdatePub]
      exact inv_DoUpdate _ _ _ _ _ _ hInv hnow
  | dumpComplete s st hlive =>
      exact inv_CompleteDumpTask _ _ hInv
  | load cfg t st hfresh ht htask =>
      exact inv_LoadFromDump _ _ _ hInv hfresh ht htask
  | syncDebug cfg ps st =>
      simp only [DumpSyncDebug]
      split_ifs with hv
      · exact inv_CompleteDumpTask _ _ (inv_DumpAsyncIfNeeded _ _ _ hInv)
      · exact inv_DumpAsyncIfNeeded _ _ _ hInv

lemma inv_of_reachable (st : CacheState) (h : Reachable st) : Inv st := by
  unfold Reachable at h
  induction h with
  | refl => exact inv_InitState
  | tail hab hbc ih => exact step_preserves_inv _ _ hbc ih

lemma complete_ldu_mono (st : CacheState) (s : Bool) (hInv : Inv st) :
    st.last_dumped_update ≤ (CompleteDumpTask st s).last_dumped_update := by
  obtain ⟨h1, h2, h3, h4, h5, h6⟩ := hInv
  unfold CompleteDumpTask
  cases htask : st.dump_task with
  | invalid => exact le_refl _
  | finished => exact le_refl _
  | running op o n =>
      obtain ⟨ha, hb⟩ := h5 op o n htask
      show st.last_dumped_update ≤ (if s then n else st.last_dumped_update)
      split_ifs <;> omega

lemma step_ldu_mono (st st' : CacheState) (h : Step st st') (hInv : Inv st) :
    st.last_dumped_update ≤ st'.last_dumped_update := by
  cases h with
  | tick cfg sn tn ok m st hnow =>
      rw [DoPeriodicUpdate_state_ldu]
  | explicitUpdate t cfg sn tn ok m st hnow =>
      rw [UpdatePub_state_ldu]
  | dumpComplete s st hlive =>
      exact complete_ldu_mono _ _ hInv
  | load cfg t st hfresh ht htask =>
      show st.last_dumped_update ≤ (LoadFromDump st cfg (some t)).2.last_dumped_update
      unfold LoadFromDump
      split_ifs
      · exact le_refl _
      · exact le_max_left _ _
  | syncDebug cfg ps st =>
      have hi := inv_DumpAsyncIfNeeded DumpType.kForced st cfg hInv
      simp only [DumpSyncDebug]
      split_ifs with hv
      · calc st.last_dumped_update
            = (DumpAsyncIfNeeded DumpType.kForced st cfg).state.last_dumped_update :=
              (DumpAsyncIfNeeded_state_ldu _ _ _).symm
          _ ≤ _ := complete_ldu_mono _ _ hi
      · rw [DumpAsyncIfNeeded_state_ldu]

/-- C6: `last_dumped_update` never decreases across any transition of the
engine; whenever no dump task is in flight it does not exceed
`last_modifying_update`; and running a spawned dump task for instant `T`
to successful completion leaves `last_dumped_update` at least `T`. -/
theorem C6_last_dumped_update_monotone :
    (∀ st st', Reachable st → Step st st' →
        st.last_dumped_update ≤ st'.last_dumped_update) ∧
    (∀ st, Reachable st →
        (st.dump_task.isValid && !st.dump_task.isFinished) = false →
        st.last_dumped_update ≤ st.last_modifying_update) ∧
    (∀ st op o T, Reachable st →
        st.dump_task = DumpTaskState.running op o T →
        T ≤ (CompleteDumpTask st true).last_dumped_update) := by
  refine ⟨?_, ?_, ?_⟩
  · intro st st' hr hstep
    exact step_ldu_mono st st' hstep (inv_of_reachable st hr)
  · intro st hr h
    exact (inv_of_reachable st hr).2.2.2.2.2 h
  · intro st op o T hr htask
    unfold CompleteDumpTask
    rw [htask]
    simp

/-- Witness for C6: loading a dump with timestamp 3 into a fresh cache
does not decrease `last_dumped_update`. -/
theorem C6_last_dumped_update_monotone_witness :
    InitState.last_dumped_update ≤
      ((LoadFromDump InitState CfgW (some 3)).2).last_dumped_update :=
  C6_last_dumped_update_monotone.1 InitState _ Relation.ReflTransGen.refl
    (Step.load CfgW 3 InitState rfl (by decide) rfl)

/-- C8: `last_modifying_update ≤ last_update` holds in every reachable
state; a successful `DoUpdate` sets `last_update` to `system_now` and sets
`last_modifying_update` to the same instant exactly when `cache_modified`
was exchanged from true; a failed update changes neither instant; and a
dump load sets both instants to the dump timestamp. -/
theorem C8_update_instants_invariant :
    (∀ st, Reachable st → st.last_modifying_update ≤ st.last_update) ∧
    (∀ t st sn tn m,
        (DoUpdate t st sn tn true m).state.last_update = tn ∧
        (DoUpdate t st sn tn true m).state.last_modifying_update =
          (if st.cache_modified || m then tn else st.last_modifying_update)) ∧
    (∀ t st sn tn m,
        (DoUpdate t st sn tn false m).state.last_update = st.last_update ∧
        (DoUpdate t st sn tn false m).state.last_modifying_update =
          st.last_modifying_update) ∧
    (∀ st config t, config.dumps_enabled = true →
        (LoadFromDump st config (some t)).2.last_update = t ∧
        (LoadFromDump st config (some t)).2.last_modifying_update = t) := by
  refine ⟨?_, ?_, ?_, ?_⟩
  · intro st hr
    exact (inv_of_reachable st hr).2.1
  · intro t st sn tn m
    constructor
    · simp [DoUpdate_state_lu]
    · simp [DoUpdate_state_lmu]
  · intro t st sn tn m
    constructor
    · simp [DoUpdate_state_lu]
    · simp [DoUpdate_state_lmu]
  · intro st config t hd
    constructor
    · simp [LoadFromDump, hd]
    · simp [LoadFromDump, hd]

/-- Witness for C8: the invariant holds in the initial state. -/
theorem C8_update_instants_invariant_witness :
    InitState.last_modifying_update ≤ InitState.last_update :=
  C8_update_instants_invariant.1 InitState Relation.ReflTransGen.refl

/-- C9: under `kOnlyFull` the public `Update` coerces an incremental
request to full and runs the same update body (`DoUpdate`) directly, with
no type-decision step; consequently neither an explicitly requested nor a
periodic update ever executes with type incremental under `kOnlyFull`. -/
theorem C9_only_full_coercion :
    (∀ st config sn tn ok m,
        config.allowed_update_types = AllowedUpdateTypes.kOnlyFull →
        UpdatePub UpdateType.kIncremental st config sn tn ok m =
          DoUpdate UpdateType.kFull st sn tn ok m) ∧
    (∀ rt st config sn tn ok m,
        config.allowed_update_types = AllowedUpdateTypes.kOnlyFull →
        (UpdatePub rt st config sn tn ok m).events =
          [Event.updateRun UpdateType.kFull]) ∧
    (∀ st config sn tn ok m,
        config.allowed_update_types = AllowedUpdateTypes.kOnlyFull →
        (DoPeriodicUpdate st config sn tn ok m).events.head? =
          some (Event.updateRun UpdateType.kFull)) := by
  refine ⟨?_, ?_, ?_⟩
  · intro st config sn tn ok m h
    simp [UpdatePub, h]
  · intro rt st config sn tn ok m h
    cases rt
    · simp [UpdatePub, h, DoUpdate_events_eq]
    · simp [UpdatePub, h, DoUpdate_events_eq]
  · intro st config sn tn ok m h
    rw [DoPeriodicUpdate_events_head]
    simp [DecideUpdateType, h]

/-- Witness for C9: an explicitly requested incremental update on a loaded
cache under `kOnlyFull` runs as a full update. -/
theorem C9_only_full_coercion_witness :
    (UpdatePub UpdateType.kIncremental StAfterDump CfgW 0 7 true false).events =
      [Event.updateRun UpdateType.kFull] :=
  C9_only_full_coercion.2.1 UpdateType.kIncremental StAfterDump CfgW 0 7 true false rfl

/-- C5 (evaluation of the code at the bump-time scenario): after a
successful dump reflecting instant 5, a successful non-modifying update at
instant 10 makes the engine choose a bump-time operation, but the spawned
task captures `old_update_time = 5` and `new_update_time = 5` — not the
new update instant 10 — and its successful completion leaves
`last_dumped_update` at 5 rather than 10. -/
theorem C5_bump_time_uses_stale_instant :
    (DoPeriodicUpdate StAfterDump CfgW 0 10 true false).events =
      [Event.updateRun UpdateType.kFull,
       Event.dumpCheck DumpType.kHonorDumpInterval,
       Event.dumpScheduled DumpOperation.kBumpTime 5 5] ∧
    (DoPeriodicUpdate StAfterDump CfgW 0 10 true false).state.last_update = 10 ∧
    (CompleteDumpTask (DoPeriodicUpdate StAfterDump CfgW 0 10 true false).state
        true).last_dumped_update = 5 := by
  decide

lemma ShouldDump_false (ty : DumpType) (st : CacheState)
    (cfg : CacheConfigStatic)
    (h : cfg.dumps_enabled = false ∨ st.last_update = 0 ∨
      (st.dump_task.isValid && !st.dump_task.isFinished) = true) :
    ShouldDump ty st cfg = false := by
  unfold ShouldDump
  split_ifs with h1 h2 h3 h4 <;> simp_all

lemma ShouldDump_forced_true (st : CacheState) (cfg : CacheConfigStatic)
    (hd : cfg.dumps_enabled = true) (hlu : st.last_update ≠ 0)
    (hlive : (st.dump_task.isValid && !st.dump_task.isFinished) = false) :
    ShouldDump DumpType.kForced st cfg = true := by
  unfold ShouldDump
  split_ifs with h1 h2 h3 <;> simp_all

lemma DumpAsyncIfNeeded_not_needed (ty : DumpType) (st : CacheState)
    (cfg : CacheConfigStatic) (h : ShouldDump ty st cfg = false) :
    DumpAsyncIfNeeded ty st cfg =
      { state := st, events := [Event.dumpCheck ty] } := by
  unfold DumpAsyncIfNeeded
  rw [if_pos h]

/-- C10 counterexample: with dumps enabled, a loaded cache, and a prior
dump task still live, `DumpSyncDebug` schedules no dump operation (the
events contain no `dumpScheduled`), yet it does wait on the live task,
whose completion advances `last_dumped_update` from 3 to 8. -/
theorem C10_sync_debug_counterexample :
    (StLiveDump.dump_task.isValid && !StLiveDump.dump_task.isFinished) = true ∧
    CfgW.dumps_enabled = true ∧
    StLiveDump.last_update = 10 ∧
    (DumpSyncDebug StLiveDump CfgW true).events =
      [Event.dumpCheck DumpType.kForced, Event.dumpWait] ∧
    (DumpSyncDebug StLiveDump CfgW true).state.last_dumped_update = 8 ∧
    StLiveDump.last_dumped_update = 3 := by
  decide

/-- C10 (amended): `DumpSyncDebug` with the `kForced` type bypasses only
the `min_dump_interval` check: when dumps are disabled, or `last_update` is
the zero instant, or a previous dump task is still live, no dump operation
is scheduled; when additionally no dump-task handle is valid the call
returns without waiting and leaves the state unchanged; when the previous
dump task is still live the call waits for that task to finish (whose
completion may advance `last_dumped_update`); and when dumps are enabled,
the cache has loaded and no task is live, a dump is scheduled regardless of
`min_dump_interval`. -/
theorem C10_sync_debug_behavior (st : CacheState) (config : CacheConfigStatic)
    (ps : Bool) :
    ((config.dumps_enabled = false ∨ st.last_update = 0 ∨
        (st.dump_task.isValid && !st.dump_task.isFinished) = true) →
      ∀ op o n, Event.dumpScheduled op o n ∉ (DumpSyncDebug st config ps).events) ∧
    ((config.dumps_enabled = false ∨ st.last_update = 0) →
      st.dump_task.isValid = false →
      (DumpSyncDebug st config ps).state = st ∧
      Event.dumpWait ∉ (DumpSyncDebug st config ps).events) ∧
    ((st.dump_task.isValid && !st.dump_task.isFinished) = true →
      Event.dumpWait ∈ (DumpSyncDebug st config ps).events ∧
      (DumpSyncDebug st config ps).state = CompleteDumpTask st ps) ∧
    (config.dumps_enabled = true → st.last_update ≠ 0 →
      (st.dump_task.isValid && !st.dump_task.isFinished) = false →
      ∃ op, Event.dumpScheduled op st.last_dumped_update st.last_modifying_update ∈
        (DumpSyncDebug st config ps).events) := by
  refine ⟨?_, ?_, ?_, ?_⟩
  · intro h op o n
    have hsd := ShouldDump_false DumpType.kForced st config h
    simp only [DumpSyncDebug, DumpAsyncIfNeeded_not_needed DumpType.kForced st config hsd]
    split_ifs with hv <;> simp
  · intro h hv
    have hsd := ShouldDump_false DumpType.kForced st config (by tauto)
    simp only [DumpSyncDebug, DumpAsyncIfNeeded_not_needed DumpType.kForced st config hsd]
    rw [if_neg (by simp [hv])]
    exact ⟨rfl, by simp⟩
  · intro hlive
    have hsd := ShouldDump_false DumpType.kForced st config (Or.inr (Or.inr hlive))
    have hv : st.dump_task.isValid = true := by
      have h' := hlive
      rw [Bool.and_eq_true] at h'
      exact h'.1
    simp only [DumpSyncDebug, DumpAsyncIfNeeded_not_needed DumpType.kForced st config hsd]
    rw [if_pos hv]
    exact ⟨by simp, rfl⟩
  · intro hd hlu hlive
    have hsd := ShouldDump_forced_true st config hd hlu hlive
    by_cases he : st.last_dumped_update = st.last_modifying_update
    · refine ⟨DumpOperation.kBumpTime, ?_⟩
      simp [DumpSyncDebug, DumpAsyncIfNeeded, DumpAsync, hsd, he, DumpTaskState.isValid]
    · refine ⟨DumpOperation.kNewDump, ?_⟩
      simp [DumpSyncDebug, DumpAsyncIfNeeded, DumpAsync, hsd, he, DumpTaskState.isValid]

/-- Witness for the amended C10: `DumpSyncDebug` on a state with a live
dump task waits on that task. -/
theorem C10_sync_debug_behavior_witness :
    Event.dumpWait ∈ (DumpSyncDebug StLiveDump CfgW true).events :=
  ((C10_sync_debug_behavior StLiveDump CfgW true).2.2.1 (by decide)).1

end cache
